import Mathlib

/-!
Shallow embedding of the Eight Sleep homebridge thermostat accessory
(`src/platformAccessory.ts`) and of the Unit Mapper of the spec.

Temperatures are modelled as rationals, device levels as integers,
HomeKit characteristic values for modes/units as integers.  The
`TwoWayTempMapper` imported by the accessory from `twoWayTempMapper.ts`
is not among the reviewed sources, so every accessory operation is
parametric over a mapper record; concrete mapper instances used below
are modelled from the spec.  Remote I/O is modelled by passing the
remote response as an explicit argument and recording the calls the
operation issues in a list; `log.error` calls are recorded as `LogEvent`s
(debug logging carries no information and is omitted).
-/

namespace EightSleep

/-- The per-accessory mutable record `Thermostat_data`
(platformAccessory.ts, lines 21–27). -/
structure ThermostatData where
  CurrentHeatingCoolingState : Int
  TargetHeatingCoolingState : Int
  CurrentTemperature : ℚ
  TargetTemperature : ℚ
  TemperatureDisplayUnits : Int
  deriving DecidableEq

/-- The initial `Thermostat_data` values (lines 21–27). -/
def initialThermostatData : ThermostatData :=
  { CurrentHeatingCoolingState := 0
    TargetHeatingCoolingState := 0
    CurrentTemperature := 0
    TargetTemperature := 0
    TemperatureDisplayUnits := 1 }

/-- Calls the accessory issues against the remote client adapters. -/
inductive RemoteCall where
  | updateUserTargetLevel (level : Int)
  | turnOnAccessory
  | turnOffAccessory
  deriving DecidableEq

/-- Error-level log events of `updateTargetTemperature`. -/
inductive LogEvent where
  /-- The log on the aborted write (line 129). -/
  | errorCalcTemp (targetLevel : Int)
  /-- The local/remote mismatch log (lines 136–140). -/
  | mismatch (expectedC : ℚ) (expectedLevel : Int) (receivedC : ℚ) (receivedLevel : Int)
  deriving DecidableEq

/-- Interface of the `TwoWayTempMapper` imported from `twoWayTempMapper.ts`;
that file is outside the reviewed sources, so the accessory operations are
parametric over it. -/
structure TwoWayTempMapper where
  levelToCelsius : Int → ℚ
  celsiusToLevel : ℚ → Int
  formatCelsius : ℚ → ℚ

/-- Embedding of `tempsAreEqual` (lines 212–215): the tolerance comparison
`Math.abs(target - current) <= 0.55`. -/
def tempsAreEqual (current target : ℚ) : Bool :=
  decide (|target - current| ≤ 0.55)

/-- Embedding of `triggerCurrentHeatingCoolingStateUpdate` (lines 220–242): recomputes
`CurrentHeatingCoolingState` from the cached temperatures and target state
and returns the new value (OFF = 0, HEAT = 1, COOL = 2). -/
def triggerCurrentHeatingCoolingStateUpdate (st : ThermostatData) : ThermostatData × Int :=
  let currTemp := st.CurrentTemperature
  let targetTemp := st.TargetTemperature
  let st1 :=
    if tempsAreEqual currTemp targetTemp || st.TargetHeatingCoolingState == 0 then
      { st with CurrentHeatingCoolingState := 0 }
    else if currTemp < targetTemp then
      { st with CurrentHeatingCoolingState := 1 }
    else if currTemp > targetTemp then
      { st with CurrentHeatingCoolingState := 2 }
    else
      st
  (st1, st1.CurrentHeatingCoolingState)

/-- Embedding of `fetchCurrentTemp` (lines 93–98): `currentMeasuredLevel` is the value the
platform client returned for this side; stores its Celsius conversion. -/
def fetchCurrentTemp (m : TwoWayTempMapper) (st : ThermostatData)
    (currentMeasuredLevel : Int) : ThermostatData × ℚ :=
  let currentC := m.levelToCelsius currentMeasuredLevel
  ({ st with CurrentTemperature := currentC }, currentC)

/-- Embedding of `fetchTargetState` (lines 100–105): `accessoryIsOn` is the powered-on
flag the client returned; stores 3 (AUTO) or 0 (OFF). -/
def fetchTargetState (st : ThermostatData) (accessoryIsOn : Bool) :
    ThermostatData × Int :=
  let targetState : Int := if accessoryIsOn then 3 else 0
  ({ st with TargetHeatingCoolingState := targetState }, targetState)

/-- Embedding of `fetchTargetTemp` (lines 107–112): `targetLevel` is the user target level
the client returned; stores its Celsius conversion. -/
def fetchTargetTemp (m : TwoWayTempMapper) (st : ThermostatData)
    (targetLevel : Int) : ThermostatData × ℚ :=
  let targetC := m.levelToCelsius targetLevel
  ({ st with TargetTemperature := targetC }, targetC)

/-- Embedding of `fetchCurrentState` (lines 114–122): performs the three fetches
(`Promise.all`, written here in the order of the array) and then recomputes the
current heating/cooling state. -/
def fetchCurrentState (m : TwoWayTempMapper) (st : ThermostatData)
    (currentMeasuredLevel : Int) (accessoryIsOn : Bool) (targetLevel : Int) :
    ThermostatData × Int :=
  let st1 := (fetchCurrentTemp m st currentMeasuredLevel).1
  let st2 := (fetchTargetState st1 accessoryIsOn).1
  let st3 := (fetchTargetTemp m st2 targetLevel).1
  triggerCurrentHeatingCoolingStateUpdate st3

/-- Result of `updateTargetTemperature`: the state afterwards, the remote
calls issued, the error-level log events, and the returned temperature. -/
structure UpdateResult where
  state : ThermostatData
  calls : List RemoteCall
  log : List LogEvent
  ret : ℚ
  deriving DecidableEq

/-- Embedding of `updateTargetTemperature` (lines 124–142).  `echo` models
`accessoryClient.updateUserTargetLevel`: it maps the level sent to the level
the remote device commits.  The JavaScript guard `!targetLevel` is falsiness
of a number, i.e. `targetLevel = 0` in this integer model. -/
def updateTargetTemperature (m : TwoWayTempMapper) (st : ThermostatData)
    (newValue : ℚ) (echo : Int → Int) : UpdateResult :=
  let targetC := m.formatCelsius newValue
  let targetLevel := m.celsiusToLevel targetC
  if targetLevel = 0 ∨ targetLevel > 100 ∨ targetLevel < -100 then
    { state := st, calls := [], log := [.errorCalcTemp targetLevel], ret := targetC }
  else
    let clientTargetLevel := echo targetLevel
    let clientTargetC := m.levelToCelsius clientTargetLevel
    let st1 := { st with TargetTemperature := clientTargetC }
    let log : List LogEvent :=
      if targetC ≠ clientTargetC ∨ targetLevel ≠ clientTargetLevel then
        [.mismatch targetC targetLevel clientTargetC clientTargetLevel]
      else []
    { state := st1, calls := [.updateUserTargetLevel targetLevel], log := log,
      ret := clientTargetC }

/-- Embedding of `updateDeviceState` (lines 244–252): the power commands issued for a new
target state value (3 turns on, 0 turns off, anything else does nothing). -/
def updateDeviceState (newValue : Int) : List RemoteCall :=
  if newValue = 3 then [.turnOnAccessory]
  else if newValue = 0 then [.turnOffAccessory]
  else []

/-- Body of `handleTargetTemperatureSet` (lines 168–173) past the
responsiveness gate: update the target temperature, then recompute the
current heating/cooling state. -/
def handleTargetTemperatureSetCore (m : TwoWayTempMapper) (st : ThermostatData)
    (value : ℚ) (echo : Int → Int) : ThermostatData × List RemoteCall × List LogEvent :=
  let r := updateTargetTemperature m st value echo
  ((triggerCurrentHeatingCoolingStateUpdate r.state).1, r.calls, r.log)

/-- Body of `handleTargetHeatingCoolingStateSet` (lines 182–191) past the
responsiveness gate: issue a power command only if the value changed, always
store the new value, then recompute the current heating/cooling state. -/
def handleTargetHeatingCoolingStateSetCore (st : ThermostatData) (value : Int) :
    ThermostatData × List RemoteCall :=
  let calls := if st.TargetHeatingCoolingState ≠ value then updateDeviceState value else []
  let st1 := { st with TargetHeatingCoolingState := value }
  ((triggerCurrentHeatingCoolingStateUpdate st1).1, calls)

/-- The error thrown by the responsiveness gate
(`HapStatusError(HAPStatus.SERVICE_COMMUNICATION_FAILURE)`). -/
inductive HapError where
  | serviceCommunicationFailure
  deriving DecidableEq

/-- Embedding of `ensureDeviceResponsiveness` (lines 254–258). -/
def ensureDeviceResponsiveness (isNotResponding : Bool) : Except HapError Unit :=
  if isNotResponding then .error .serviceCommunicationFailure else .ok ()

/-- Embedding of `handleCurrentHeatingCoolingStateGet` (lines 146–151). -/
def handleCurrentHeatingCoolingStateGet (m : TwoWayTempMapper)
    (isNotResponding : Bool) (st : ThermostatData)
    (currentMeasuredLevel : Int) (accessoryIsOn : Bool) (targetLevel : Int) :
    Except HapError (ThermostatData × Int) :=
  (ensureDeviceResponsiveness isNotResponding).map fun _ =>
    fetchCurrentState m st currentMeasuredLevel accessoryIsOn targetLevel

/-- Embedding of `handleCurrentTemperatureGet` (lines 153–158). -/
def handleCurrentTemperatureGet (m : TwoWayTempMapper) (isNotResponding : Bool)
    (st : ThermostatData) (currentMeasuredLevel : Int) :
    Except HapError (ThermostatData × ℚ) :=
  (ensureDeviceResponsiveness isNotResponding).map fun _ =>
    fetchCurrentTemp m st currentMeasuredLevel

/-- Embedding of `handleTargetTemperatureGet` (lines 161–166). -/
def handleTargetTemperatureGet (m : TwoWayTempMapper) (isNotResponding : Bool)
    (st : ThermostatData) (targetLevel : Int) :
    Except HapError (ThermostatData × ℚ) :=
  (ensureDeviceResponsiveness isNotResponding).map fun _ =>
    fetchTargetTemp m st targetLevel

/-- Embedding of `handleTargetTemperatureSet` (lines 168–173). -/
def handleTargetTemperatureSet (m : TwoWayTempMapper) (isNotResponding : Bool)
    (st : ThermostatData) (value : ℚ) (echo : Int → Int) :
    Except HapError (ThermostatData × List RemoteCall × List LogEvent) :=
  (ensureDeviceResponsiveness isNotResponding).map fun _ =>
    handleTargetTemperatureSetCore m st value echo

/-- Embedding of `handleTargetHeatingCoolingStateGet` (lines 175–180). -/
def handleTargetHeatingCoolingStateGet (isNotResponding : Bool)
    (st : ThermostatData) (accessoryIsOn : Bool) :
    Except HapError (ThermostatData × Int) :=
  (ensureDeviceResponsiveness isNotResponding).map fun _ =>
    fetchTargetState st accessoryIsOn

/-- Embedding of `handleTargetHeatingCoolingStateSet` (lines 182–191). -/
def handleTargetHeatingCoolingStateSet (isNotResponding : Bool)
    (st : ThermostatData) (value : Int) :
    Except HapError (ThermostatData × List RemoteCall) :=
  (ensureDeviceResponsiveness isNotResponding).map fun _ =>
    handleTargetHeatingCoolingStateSetCore st value

/-- Embedding of `handleTemperatureDisplayUnitsGet` (lines 194–199). -/
def handleTemperatureDisplayUnitsGet (isNotResponding : Bool)
    (st : ThermostatData) : Except HapError Int :=
  (ensureDeviceResponsiveness isNotResponding).map fun _ =>
    st.TemperatureDisplayUnits

/-- Embedding of `handleTemperatureDisplayUnitsSet` (lines 201–205). -/
def handleTemperatureDisplayUnitsSet (isNotResponding : Bool)
    (st : ThermostatData) (value : Int) : Except HapError ThermostatData :=
  (ensureDeviceResponsiveness isNotResponding).map fun _ =>
    { st with TemperatureDisplayUnits := value }

/-- Embedding of `minStep` (line 17). -/
def minStep : ℚ := 0.55556

/-- Embedding of `minTempC` (line 18). -/
def minTempC : ℚ := 10

/-- Embedding of `maxTempC` (line 19). -/
def maxTempC : ℚ := 45.1

/-- Modelled from the spec: `formatCelsius` of the Unit Mapper
(`twoWayTempMapper.ts`, absent from the reviewed sources) "quantizes an
arbitrary real number down to the nearest representable step inside
`[minTempC, maxTempC]`": clamp into the domain, then round to the nearest
point of the `minStep` grid based at `minTempC` (round-to-nearest is forced
by the round-trip bound of the spec, which a floor-quantization would break). -/
def formatCelsiusSpec (c : ℚ) : ℚ :=
  minTempC + round ((max minTempC (min maxTempC c) - minTempC) / minStep) * minStep

/-- Modelled from the spec: a concrete Unit Mapper instance
(`twoWayTempMapper.ts` is absent from the reviewed sources).  The spec only
fixes black-box properties — `levelToCelsius` monotonic with image inside
`[minTempC, maxTempC]`, `celsiusToLevel` its rounded inverse — so a linear
instance mapping level `[-100, 100]` onto exactly `[10, 45.1]` is used:
slope `0.1755 = (45.1 - 10) / 200`, midpoint `27.55`. -/
def specMapper : TwoWayTempMapper :=
  { levelToCelsius := fun l => 27.55 + l * 0.1755
    celsiusToLevel := fun c => round ((c - 27.55) / 0.1755)
    formatCelsius := formatCelsiusSpec }

/-- Modelled from the spec: a second Unit Mapper instance satisfying the same
black-box contract, whose neutral temperature (level 0) lies exactly on the
`formatCelsiusSpec` grid (`10 + 32 * minStep = 27.77792`), so that
`celsiusToLevel (formatCelsius c) = 0` is reachable; slope `0.17322` keeps
the image of `[-100, 100]` inside `[10, 45.1]`. -/
def gridMapper : TwoWayTempMapper :=
  { levelToCelsius := fun l => (10 + 32 * minStep) + l * 0.17322
    celsiusToLevel := fun c => round ((c - (10 + 32 * minStep)) / 0.17322)
    formatCelsius := formatCelsiusSpec }

/-- Modelled from the spec: a Unit Mapper instance whose `formatCelsius` does
not clamp (the spec allows `celsiusToLevel` to "return an out-of-range
integer for out-of-domain input", which is only reachable without
clamping); used to exercise the out-of-range abort path. -/
def rawMapper : TwoWayTempMapper :=
  { levelToCelsius := fun l => 27.55 + l * 0.1755
    celsiusToLevel := fun c => round ((c - 27.55) / 0.1755)
    formatCelsius := fun c => c }

/-- Modelled from the spec (§4.2): `deriveCurrentMode`, the pure state
machine with inputs current temperature, target temperature and target mode:
OFF (0) when the target mode is OFF or the temperatures differ by at most
`toleranceC = 0.55`; HEAT (1) when neither holds and current < target;
COOL (2) otherwise. -/
def deriveCurrentMode (currentTemperatureC targetTemperatureC : ℚ)
    (targetMode : Int) : Int :=
  if targetMode = 0 ∨ |targetTemperatureC - currentTemperatureC| ≤ 0.55 then 0
  else if currentTemperatureC < targetTemperatureC then 1
  else 2

/-- One accessory operation together with the remote responses it consumes
(the echo function models the committed-value reply of `updateUserTargetLevel`). -/
inductive Op where
  | currentHCStateGet (currentMeasuredLevel : Int) (accessoryIsOn : Bool) (targetLevel : Int)
  | currentTempGet (currentMeasuredLevel : Int)
  | targetTempGet (targetLevel : Int)
  | targetTempSet (value : ℚ) (echo : Int → Int)
  | targetHCStateGet (accessoryIsOn : Bool)
  | targetHCStateSet (value : Int)
  | displayUnitsSet (value : Int)

/-- The state after running one handler (device responding); get handlers
that do not touch the state are omitted as identities. -/
def runOp (m : TwoWayTempMapper) (st : ThermostatData) : Op → ThermostatData
  | .currentHCStateGet a b c => (fetchCurrentState m st a b c).1
  | .currentTempGet a => (fetchCurrentTemp m st a).1
  | .targetTempGet c => (fetchTargetTemp m st c).1
  | .targetTempSet v echo => (handleTargetTemperatureSetCore m st v echo).1
  | .targetHCStateGet b => (fetchTargetState st b).1
  | .targetHCStateSet v => (handleTargetHeatingCoolingStateSetCore st v).1
  | .displayUnitsSet v => { st with TemperatureDisplayUnits := v }

/-- States of one accessory reachable from the initial record by handler
invocations. -/
inductive Reachable (m : TwoWayTempMapper) : ThermostatData → Prop where
  | init : Reachable m initialThermostatData
  | step {st : ThermostatData} (h : Reachable m st) (op : Op) :
      Reachable m (runOp m st op)

/-- The derived-mode cache invariant of the spec (§3): the cached
`CurrentHeatingCoolingState` agrees with the pure derivation applied to the
other fields. -/
def modeInvariant (st : ThermostatData) : Prop :=
  st.CurrentHeatingCoolingState =
    deriveCurrentMode st.CurrentTemperature st.TargetTemperature
      st.TargetHeatingCoolingState

lemma trigger_fst (st : ThermostatData) :
    (triggerCurrentHeatingCoolingStateUpdate st).1 =
      { st with CurrentHeatingCoolingState := (deriveCurrentMode
          st.CurrentTemperature st.TargetTemperature
          st.TargetHeatingCoolingState) } := by
  by_cases h1 : |st.TargetTemperature - st.CurrentTemperature| ≤ 0.55
  · simp [triggerCurrentHeatingCoolingStateUpdate, deriveCurrentMode, tempsAreEqual, h1]
  · by_cases h2 : st.TargetHeatingCoolingState = 0
    · simp [triggerCurrentHeatingCoolingStateUpdate, deriveCurrentMode, tempsAreEqual,
        h1, h2]
    · rcases lt_trichotomy st.CurrentTemperature st.TargetTemperature with h3 | h3 | h3
      · simp [triggerCurrentHeatingCoolingStateUpdate, deriveCurrentMode, tempsAreEqual,
          h1, h2, h3]
      · exact absurd (by rw [h3, sub_self, abs_zero]; norm_num) h1
      · have h4 : ¬ st.CurrentTemperature < st.TargetTemperature := not_lt.mpr h3.le
        simp [triggerCurrentHeatingCoolingStateUpdate, deriveCurrentMode, tempsAreEqual,
          h1, h2, h3, h4]

lemma trigger_snd (st : ThermostatData) :
    (triggerCurrentHeatingCoolingStateUpdate st).2 =
      deriveCurrentMode st.CurrentTemperature st.TargetTemperature
        st.TargetHeatingCoolingState := by
  have h : (triggerCurrentHeatingCoolingStateUpdate st).2 =
      (triggerCurrentHeatingCoolingStateUpdate st).1.CurrentHeatingCoolingState := rfl
  rw [h, trigger_fst]

lemma trigger_establishes (st : ThermostatData) :
    modeInvariant (triggerCurrentHeatingCoolingStateUpdate st).1 := by
  rw [modeInvariant, trigger_fst]

/-- C1: the value `triggerCurrentHeatingCoolingStateUpdate` stores (and
returns) as the current heating/cooling state equals the
`deriveCurrentMode`: OFF (0) when the target mode is OFF or the two
temperatures differ by at most `toleranceC = 0.55`; HEAT (1) when neither
holds and the current temperature is below the target; COOL (2) otherwise. -/
theorem claim1_derived_mode_correct (st : ThermostatData) :
    (triggerCurrentHeatingCoolingStateUpdate st).1.CurrentHeatingCoolingState =
      deriveCurrentMode st.CurrentTemperature st.TargetTemperature
        st.TargetHeatingCoolingState ∧
    (triggerCurrentHeatingCoolingStateUpdate st).2 =
      deriveCurrentMode st.CurrentTemperature st.TargetTemperature
        st.TargetHeatingCoolingState := by
  refine ⟨?_, trigger_snd st⟩
  rw [trigger_fst]

/-- C8: with the device flagged unresponsive, every get/set handler of the
accessory fails immediately with the service-communication-failure error;
no state, remote call or log output is produced (the error result carries
none). -/
theorem claim8_responsiveness_gate (m : TwoWayTempMapper) (st : ThermostatData)
    (a : Int) (b : Bool) (c : Int) (v : ℚ) (echo : Int → Int) (w u : Int) :
    handleCurrentHeatingCoolingStateGet m true st a b c =
      .error .serviceCommunicationFailure ∧
    handleCurrentTemperatureGet m true st a = .error .serviceCommunicationFailure ∧
    handleTargetTemperatureGet m true st c = .error .serviceCommunicationFailure ∧
    handleTargetTemperatureSet m true st v echo =
      .error .serviceCommunicationFailure ∧
    handleTargetHeatingCoolingStateGet true st b =
      .error .serviceCommunicationFailure ∧
    handleTargetHeatingCoolingStateSet true st w =
      .error .serviceCommunicationFailure ∧
    handleTemperatureDisplayUnitsGet true st = .error .serviceCommunicationFailure ∧
    handleTemperatureDisplayUnitsSet true st u =
      .error .serviceCommunicationFailure :=
  ⟨rfl, rfl, rfl, rfl, rfl, rfl, rfl, rfl⟩

/-- C9: the three fetches of `fetchCurrentState` touch disjoint fields and
commute pairwise (so any completion order yields the same state), the final
recomputation runs on the state holding all three fetched values (the join
barrier), and the returned value is the mode derived from the three fetched
values. -/
theorem claim9_aggregate_fetch_join (m : TwoWayTempMapper) (st : ThermostatData)
    (a : Int) (b : Bool) (c : Int) :
    (fetchTargetState (fetchCurrentTemp m st a).1 b).1 =
      (fetchCurrentTemp m (fetchTargetState st b).1 a).1 ∧
    (fetchTargetTemp m (fetchCurrentTemp m st a).1 c).1 =
      (fetchCurrentTemp m (fetchTargetTemp m st c).1 a).1 ∧
    (fetchTargetTemp m (fetchTargetState st b).1 c).1 =
      (fetchTargetState (fetchTargetTemp m st c).1 b).1 ∧
    fetchCurrentState m st a b c =
      triggerCurrentHeatingCoolingStateUpdate
        { st with CurrentTemperature := m.levelToCelsius a
                  TargetHeatingCoolingState := if b then 3 else 0
                  TargetTemperature := m.levelToCelsius c } ∧
    (fetchCurrentState m st a b c).2 =
      deriveCurrentMode (m.levelToCelsius a) (m.levelToCelsius c)
        (if b then 3 else 0) := by
  refine ⟨rfl, rfl, rfl, rfl, ?_⟩
  have h : fetchCurrentState m st a b c =
      triggerCurrentHeatingCoolingStateUpdate
        { st with CurrentTemperature := m.levelToCelsius a
                  TargetHeatingCoolingState := if b then 3 else 0
                  TargetTemperature := m.levelToCelsius c } := rfl
  rw [h, trigger_snd]

lemma update_abort (m : TwoWayTempMapper) (st : ThermostatData) (v : ℚ)
    (echo : Int → Int)
    (h : m.celsiusToLevel (m.formatCelsius v) = 0 ∨
      m.celsiusToLevel (m.formatCelsius v) > 100 ∨
      m.celsiusToLevel (m.formatCelsius v) < -100) :
    updateTargetTemperature m st v echo =
      { state := st, calls := [],
        log := [.errorCalcTemp (m.celsiusToLevel (m.formatCelsius v))],
        ret := m.formatCelsius v } := by
  simp only [updateTargetTemperature]
  rw [if_pos h]

lemma update_success (m : TwoWayTempMapper) (st : ThermostatData) (v : ℚ)
    (echo : Int → Int)
    (h : ¬(m.celsiusToLevel (m.formatCelsius v) = 0 ∨
      m.celsiusToLevel (m.formatCelsius v) > 100 ∨
      m.celsiusToLevel (m.formatCelsius v) < -100)) :
    updateTargetTemperature m st v echo =
      { state := { st with TargetTemperature :=
            (m.levelToCelsius (echo (m.celsiusToLevel (m.formatCelsius v)))) }
        calls := [.updateUserTargetLevel (m.celsiusToLevel (m.formatCelsius v))]
        log :=
          (if m.formatCelsius v ≠
                m.levelToCelsius (echo (m.celsiusToLevel (m.formatCelsius v))) ∨
              m.celsiusToLevel (m.formatCelsius v) ≠
                echo (m.celsiusToLevel (m.formatCelsius v)) then
            [.mismatch (m.formatCelsius v) (m.celsiusToLevel (m.formatCelsius v))
              (m.levelToCelsius (echo (m.celsiusToLevel (m.formatCelsius v))))
              (echo (m.celsiusToLevel (m.formatCelsius v)))]
          else [])
        ret := (m.levelToCelsius (echo (m.celsiusToLevel (m.formatCelsius v)))) } := by
  simp only [updateTargetTemperature]
  rw [if_neg h]

lemma formatCelsiusSpec_2778 : formatCelsiusSpec 27.78 = 10 + 32 * minStep := by
  unfold formatCelsiusSpec minTempC maxTempC minStep
  rw [min_eq_right (by norm_num), max_eq_right (by norm_num)]
  have h : round (((27.78:ℚ) - 10) / 0.55556) = 32 := by
    rw [round_eq, Int.floor_eq_iff]
    constructor <;> norm_num
  rw [h]
  norm_num

lemma gridMapper_level_center : gridMapper.celsiusToLevel (10 + 32 * minStep) = 0 := by
  show round (((10 + 32 * minStep) - (10 + 32 * minStep)) / (0.17322:ℚ)) = 0
  rw [sub_self, zero_div, round_zero]

lemma gridMapper_level_2778 :
    gridMapper.celsiusToLevel (gridMapper.formatCelsius 27.78) = 0 := by
  show gridMapper.celsiusToLevel (formatCelsiusSpec 27.78) = 0
  rw [formatCelsiusSpec_2778, gridMapper_level_center]

lemma rawMapper_level_60 : rawMapper.celsiusToLevel (rawMapper.formatCelsius 60) = 185 := by
  show round (((60:ℚ) - 27.55) / 0.1755) = 185
  rw [round_eq, Int.floor_eq_iff]
  constructor <;> norm_num

/-- C2 counterexample: with a mapper satisfying the Unit-Mapper
contract of the spec, the request 27.78 °C maps to level 0 — inside `[-100, 100]`, so
per the claim the write should be sent — yet `updateTargetTemperature`
issues no remote call and leaves the state untouched: the JavaScript guard
`!targetLevel` also aborts on level 0. -/
theorem claim2_counterexample :
    (-100 ≤ gridMapper.celsiusToLevel (gridMapper.formatCelsius 27.78) ∧
      gridMapper.celsiusToLevel (gridMapper.formatCelsius 27.78) ≤ 100) ∧
    (updateTargetTemperature gridMapper initialThermostatData 27.78
        (fun l => l)).calls = [] ∧
    (updateTargetTemperature gridMapper initialThermostatData 27.78
        (fun l => l)).state = initialThermostatData := by
  have h0 := gridMapper_level_2778
  have habort := update_abort gridMapper initialThermostatData 27.78
    (fun l => l) (Or.inl h0)
  refine ⟨⟨by rw [h0]; norm_num, by rw [h0]; norm_num⟩, ?_, ?_⟩ <;> rw [habort]

/-- C2 (amended): `updateTargetTemperature` aborts exactly when the level
computed from the normalized request is 0 or falls outside `[-100, 100]`:
then it logs an error, makes no remote call, and leaves the state untouched;
otherwise it sends the level to the remote device and stores (and returns)
the Celsius conversion of the echoed committed level. -/
theorem claim2_abort_guard (m : TwoWayTempMapper) (st : ThermostatData) (v : ℚ)
    (echo : Int → Int) :
    (m.celsiusToLevel (m.formatCelsius v) = 0 ∨
        m.celsiusToLevel (m.formatCelsius v) > 100 ∨
        m.celsiusToLevel (m.formatCelsius v) < -100 →
      updateTargetTemperature m st v echo =
        { state := st, calls := [],
          log := [.errorCalcTemp (m.celsiusToLevel (m.formatCelsius v))],
          ret := m.formatCelsius v }) ∧
    (¬(m.celsiusToLevel (m.formatCelsius v) = 0 ∨
        m.celsiusToLevel (m.formatCelsius v) > 100 ∨
        m.celsiusToLevel (m.formatCelsius v) < -100) →
      (updateTargetTemperature m st v echo).calls =
        [.updateUserTargetLevel (m.celsiusToLevel (m.formatCelsius v))] ∧
      (updateTargetTemperature m st v echo).state =
        { st with TargetTemperature :=
          (m.levelToCelsius (echo (m.celsiusToLevel (m.formatCelsius v)))) } ∧
      (updateTargetTemperature m st v echo).ret =
        m.levelToCelsius (echo (m.celsiusToLevel (m.formatCelsius v)))) := by
  refine ⟨fun h => update_abort m st v echo h, fun h => ?_⟩
  rw [update_success m st v echo h]
  exact ⟨rfl, rfl, rfl⟩

/-- C2 witness: the amended guard applied at the concrete level-0 input. -/
theorem claim2_abort_guard_witness :
    updateTargetTemperature gridMapper initialThermostatData 27.78 (fun l => l) =
      { state := initialThermostatData, calls := [],
        log := [.errorCalcTemp 0], ret := gridMapper.formatCelsius 27.78 } := by
  have h := (claim2_abort_guard gridMapper initialThermostatData 27.78
    (fun l => l)).1 (Or.inl gridMapper_level_2778)
  rw [h, gridMapper_level_2778]

/-- C6: whenever the mapper turns the normalized request into level 0 — a
value inside `[-100, 100]` — `updateTargetTemperature` still takes the abort
branch (JavaScript falsiness of `!targetLevel`): it logs the error, issues
no remote call, and leaves the stored state unchanged. -/
theorem claim6_zero_level_aborts (m : TwoWayTempMapper) (st : ThermostatData)
    (v : ℚ) (echo : Int → Int)
    (h : m.celsiusToLevel (m.formatCelsius v) = 0) :
    updateTargetTemperature m st v echo =
      { state := st, calls := [], log := [.errorCalcTemp 0],
        ret := m.formatCelsius v } := by
  have h2 := update_abort m st v echo (Or.inl h)
  rw [h2, h]

/-- C6 witness: the level-0 abort at the concrete input 27.78 °C under the
spec-modelled mapper whose neutral level lies on the quantization grid. -/
theorem claim6_zero_level_aborts_witness :
    gridMapper.celsiusToLevel (gridMapper.formatCelsius 27.78) = 0 ∧
    updateTargetTemperature gridMapper initialThermostatData 27.78 (fun l => l) =
      { state := initialThermostatData, calls := [], log := [.errorCalcTemp 0],
        ret := gridMapper.formatCelsius 27.78 } :=
  ⟨gridMapper_level_2778,
    claim6_zero_level_aborts gridMapper initialThermostatData 27.78 (fun l => l)
      gridMapper_level_2778⟩

/-- C4: on every non-aborted write, the stored (and returned) target
temperature is the Celsius conversion of the level the remote echoed as
committed; when the echoed level or its Celsius conversion differs from the
request, exactly one mismatch event is logged (none otherwise), and the set
handler still completes without an exception. -/
theorem claim4_remote_authoritative (m : TwoWayTempMapper) (st : ThermostatData)
    (v : ℚ) (echo : Int → Int)
    (h : ¬(m.celsiusToLevel (m.formatCelsius v) = 0 ∨
      m.celsiusToLevel (m.formatCelsius v) > 100 ∨
      m.celsiusToLevel (m.formatCelsius v) < -100)) :
    (updateTargetTemperature m st v echo).state.TargetTemperature =
      m.levelToCelsius (echo (m.celsiusToLevel (m.formatCelsius v))) ∧
    (updateTargetTemperature m st v echo).ret =
      m.levelToCelsius (echo (m.celsiusToLevel (m.formatCelsius v))) ∧
    (m.formatCelsius v ≠
        m.levelToCelsius (echo (m.celsiusToLevel (m.formatCelsius v))) ∨
        m.celsiusToLevel (m.formatCelsius v) ≠
          echo (m.celsiusToLevel (m.formatCelsius v)) →
      (updateTargetTemperature m st v echo).log =
        [.mismatch (m.formatCelsius v) (m.celsiusToLevel (m.formatCelsius v))
          (m.levelToCelsius (echo (m.celsiusToLevel (m.formatCelsius v))))
          (echo (m.celsiusToLevel (m.formatCelsius v)))]) ∧
    (m.formatCelsius v =
        m.levelToCelsius (echo (m.celsiusToLevel (m.formatCelsius v))) ∧
        m.celsiusToLevel (m.formatCelsius v) =
          echo (m.celsiusToLevel (m.formatCelsius v)) →
      (updateTargetTemperature m st v echo).log = []) ∧
    (∃ out, handleTargetTemperatureSet m false st v echo = Except.ok out) := by
  rw [update_success m st v echo h]
  refine ⟨rfl, rfl, fun hm => ?_, fun hm => ?_, ⟨_, rfl⟩⟩
  · rw [if_pos hm]
  · rw [if_neg (not_or.mpr ⟨fun hc => hc hm.1, fun hc => hc hm.2⟩)]

/-- A concrete instance of the external mapper interface: constant level 50
and constant conversion 21 °C, used to exercise the mismatch path. -/
def constMapper : TwoWayTempMapper :=
  { levelToCelsius := fun _ => 21
    celsiusToLevel := fun _ => 50
    formatCelsius := fun c => c }

/-- C4 witness: the remote echoes level 51 for the sent level 50; the stored
target adopts the echoed conversion and exactly one mismatch is logged. -/
theorem claim4_remote_authoritative_witness :
    (updateTargetTemperature constMapper initialThermostatData 20
        (fun l => l + 1)).state.TargetTemperature = 21 ∧
    (updateTargetTemperature constMapper initialThermostatData 20
        (fun l => l + 1)).log = [.mismatch 20 50 21 51] := by
  have h := claim4_remote_authoritative constMapper initialThermostatData 20
    (fun l => l + 1) (by decide)
  refine ⟨h.1, ?_⟩
  have hlog := h.2.2.1 (Or.inl (by norm_num [constMapper]))
  simpa [constMapper] using hlog

/-- C5 counterexample: an aborted out-of-range write (level 185 for the
request 60 °C) returns the normalized requested temperature 60 — not the
previously stored target 20 — to its caller. -/
theorem claim5_counterexample :
    100 < rawMapper.celsiusToLevel (rawMapper.formatCelsius 60) ∧
    (updateTargetTemperature rawMapper
        { initialThermostatData with TargetTemperature := 20 } 60
        (fun l => l)).calls = [] ∧
    (updateTargetTemperature rawMapper
        { initialThermostatData with TargetTemperature := 20 } 60
        (fun l => l)).ret ≠ 20 ∧
    (updateTargetTemperature rawMapper
        { initialThermostatData with TargetTemperature := 20 } 60
        (fun l => l)).ret = 60 := by
  have h185 := rawMapper_level_60
  have habort := update_abort rawMapper
    { initialThermostatData with TargetTemperature := 20 } 60 (fun l => l)
    (Or.inr (Or.inl (by rw [h185]; norm_num)))
  refine ⟨by rw [h185]; norm_num, ?_, ?_, ?_⟩ <;> rw [habort]
  · show (60:ℚ) ≠ 20
    norm_num
  · rfl

/-- C5 (amended): a write aborted by the out-of-range level check issues no
remote call, mutates no field of the stored state, logs the error, and
returns the normalized requested temperature (`formatCelsius` of the
request) — not the previously stored target — to its caller. -/
theorem claim5_abort_no_mutation (m : TwoWayTempMapper) (st : ThermostatData)
    (v : ℚ) (echo : Int → Int)
    (h : m.celsiusToLevel (m.formatCelsius v) > 100 ∨
      m.celsiusToLevel (m.formatCelsius v) < -100) :
    updateTargetTemperature m st v echo =
      { state := st, calls := [],
        log := [.errorCalcTemp (m.celsiusToLevel (m.formatCelsius v))],
        ret := m.formatCelsius v } :=
  update_abort m st v echo (Or.inr h)

/-- C5 witness: the amended abort behaviour at the concrete out-of-range
input 60 °C. -/
theorem claim5_abort_no_mutation_witness :
    rawMapper.celsiusToLevel (rawMapper.formatCelsius 60) > 100 ∧
    updateTargetTemperature rawMapper
      { initialThermostatData with TargetTemperature := 20 } 60 (fun l => l) =
      { state := { initialThermostatData with TargetTemperature := 20 },
        calls := [], log := [.errorCalcTemp 185],
        ret := rawMapper.formatCelsius 60 } := by
  have hgt : rawMapper.celsiusToLevel (rawMapper.formatCelsius 60) > 100 := by
    rw [rawMapper_level_60]; norm_num
  refine ⟨hgt, ?_⟩
  have h := claim5_abort_no_mutation rawMapper
    { initialThermostatData with TargetTemperature := 20 } 60 (fun l => l)
    (Or.inl hgt)
  rw [h, rawMapper_level_60]

/-- C3 counterexample state: set the target mode to AUTO, then serve a
target-temperature get whose remote target level is 100. -/
def staleState : ThermostatData :=
  runOp specMapper
    (runOp specMapper initialThermostatData (Op.targetHCStateSet 3))
    (Op.targetTempGet 100)

lemma staleState_eq : staleState = ⟨0, 3, 0, 45.1, 1⟩ := by
  have e1 : runOp specMapper initialThermostatData (Op.targetHCStateSet 3) =
      ⟨0, 3, 0, 0, 1⟩ := by
    show (triggerCurrentHeatingCoolingStateUpdate
      { initialThermostatData with TargetHeatingCoolingState := 3 }).1 = _
    rw [trigger_fst]
    norm_num [initialThermostatData, deriveCurrentMode]
  have e2 : staleState =
      runOp specMapper (⟨0, 3, 0, 0, 1⟩ : ThermostatData) (Op.targetTempGet 100) := by
    unfold staleState
    rw [e1]
  rw [e2]
  show ({ (⟨0, 3, 0, 0, 1⟩ : ThermostatData) with
    TargetTemperature := specMapper.levelToCelsius 100 } : ThermostatData) = _
  norm_num [specMapper]

/-- C3 counterexample: a reachable state in which the cached current mode
disagrees with the pure derivation — the target-temperature get mutated the
target temperature without recomputing the mode. -/
theorem claim3_counterexample :
    Reachable specMapper staleState ∧ ¬ modeInvariant staleState := by
  constructor
  · exact Reachable.step (Reachable.step Reachable.init (Op.targetHCStateSet 3))
      (Op.targetTempGet 100)
  · rw [staleState_eq, modeInvariant]
    norm_num [deriveCurrentMode, abs_of_nonneg]

/-- C3 (amended): the aggregate current-state get, the target-temperature
set and the target-mode set re-establish the derived-mode equality before
returning, but the single-field fetches (current temperature, target mode,
target temperature) mutate their field without recomputing the cached mode,
so the equality does not hold in every reachable state. -/
theorem claim3_mode_recomputed_after_updates (m : TwoWayTempMapper)
    (st : ThermostatData) (a : Int) (b : Bool) (c : Int) (v : ℚ)
    (echo : Int → Int) (w : Int) :
    modeInvariant (fetchCurrentState m st a b c).1 ∧
    modeInvariant (handleTargetTemperatureSetCore m st v echo).1 ∧
    modeInvariant (handleTargetHeatingCoolingStateSetCore st w).1 :=
  ⟨trigger_establishes _, trigger_establishes _, trigger_establishes _⟩

/-- C7: the target-mode set handler issues the matching power command to the
remote device exactly when the requested mode value differs from the stored
one, always stores the requested value, and recomputes the derived current
mode from it before returning. -/
theorem claim7_target_mode_set (st : ThermostatData) (value : Int)
    (h : value = 0 ∨ value = 3) :
    (st.TargetHeatingCoolingState ≠ value →
      (handleTargetHeatingCoolingStateSetCore st value).2 =
        [if value = 3 then RemoteCall.turnOnAccessory
          else RemoteCall.turnOffAccessory]) ∧
    (st.TargetHeatingCoolingState = value →
      (handleTargetHeatingCoolingStateSetCore st value).2 = []) ∧
    (handleTargetHeatingCoolingStateSetCore st value).1.TargetHeatingCoolingState =
      value ∧
    (handleTargetHeatingCoolingStateSetCore st value).1.CurrentHeatingCoolingState =
      deriveCurrentMode st.CurrentTemperature st.TargetTemperature value := by
  refine ⟨?_, ?_, ?_, ?_⟩
  · intro hne
    show (if st.TargetHeatingCoolingState ≠ value then updateDeviceState value
      else []) = _
    rw [if_pos hne]
    rcases h with h0 | h3
    · rw [h0]
      simp [updateDeviceState]
    · rw [h3]
      simp [updateDeviceState]
  · intro he
    show (if st.TargetHeatingCoolingState ≠ value then updateDeviceState value
      else []) = _
    rw [if_neg (not_not_intro he)]
  · show (triggerCurrentHeatingCoolingStateUpdate
      { st with TargetHeatingCoolingState := value }).1.TargetHeatingCoolingState = _
    rw [trigger_fst]
  · show (triggerCurrentHeatingCoolingStateUpdate
      { st with TargetHeatingCoolingState := value }).1.CurrentHeatingCoolingState = _
    rw [trigger_fst]

/-- C7 witness: from the initial state (target mode OFF), setting AUTO (3)
issues exactly the power-on command and stores the requested mode. -/
theorem claim7_target_mode_set_witness :
    initialThermostatData.TargetHeatingCoolingState ≠ 3 ∧
    (handleTargetHeatingCoolingStateSetCore initialThermostatData 3).2 =
      [RemoteCall.turnOnAccessory] ∧
    (handleTargetHeatingCoolingStateSetCore
      initialThermostatData 3).1.TargetHeatingCoolingState = 3 := by
  have h := claim7_target_mode_set initialThermostatData 3 (Or.inr rfl)
  have hne : initialThermostatData.TargetHeatingCoolingState ≠ 3 := by decide
  refine ⟨hne, ?_, h.2.2.1⟩
  have hc := h.1 hne
  simpa using hc

lemma round_mul_sub_abs (x s : ℚ) (hs : 0 < s) :
    |(round x : ℚ) * s - x * s| ≤ s / 2 := by
  rw [← sub_mul, abs_mul, abs_of_pos hs]
  have h := abs_sub_round x
  rw [abs_sub_comm] at h
  calc |(round x : ℚ) - x| * s ≤ (1/2) * s :=
        mul_le_mul_of_nonneg_right h hs.le
    _ = s / 2 := by ring

/-- C10: for every temperature in `[minTempC, maxTempC]`, converting through
`formatCelsius`, `celsiusToLevel` and back through `levelToCelsius` moves the
value by at most `toleranceC = 0.55` (Unit Mapper modelled from the spec). -/
theorem claim10_roundtrip_bound (t : ℚ) (h1 : minTempC ≤ t) (h2 : t ≤ maxTempC) :
    |specMapper.levelToCelsius (specMapper.celsiusToLevel
      (specMapper.formatCelsius t)) - t| ≤ 0.55 := by
  have hclamp : max minTempC (min maxTempC t) = t := by
    rw [min_eq_right h2, max_eq_right h1]
  have hstep : (0:ℚ) < minStep := by norm_num [minStep]
  have hfmt : specMapper.formatCelsius t =
      minTempC + round ((t - minTempC) / minStep) * minStep := by
    show formatCelsiusSpec t = _
    unfold formatCelsiusSpec
    rw [hclamp]
  set u := (t - minTempC) / minStep with hu
  have hx : u * minStep = t - minTempC := by
    rw [hu]
    exact div_mul_cancel₀ _ (ne_of_gt hstep)
  have hf1 : |specMapper.formatCelsius t - t| ≤ minStep / 2 := by
    rw [hfmt]
    have he : minTempC + (round u : ℚ) * minStep - t =
        (round u : ℚ) * minStep - u * minStep := by
      rw [hx]
      ring
    rw [he]
    exact round_mul_sub_abs u minStep hstep
  set f := specMapper.formatCelsius t with hfdef
  have hr : (0:ℚ) < 0.1755 := by norm_num
  set w := (f - 27.55) / 0.1755 with hw
  have hy : w * 0.1755 = f - 27.55 := by
    rw [hw]
    exact div_mul_cancel₀ _ (ne_of_gt hr)
  have hL : specMapper.levelToCelsius (specMapper.celsiusToLevel f) =
      27.55 + (round w : ℚ) * 0.1755 := rfl
  have hf2 : |specMapper.levelToCelsius (specMapper.celsiusToLevel f) - f| ≤
      0.1755 / 2 := by
    rw [hL]
    have he : (27.55:ℚ) + (round w : ℚ) * 0.1755 - f =
        (round w : ℚ) * 0.1755 - w * 0.1755 := by
      rw [hy]
      ring
    rw [he]
    exact round_mul_sub_abs w 0.1755 hr
  calc |specMapper.levelToCelsius (specMapper.celsiusToLevel f) - t| ≤
        |specMapper.levelToCelsius (specMapper.celsiusToLevel f) - f| +
          |f - t| := abs_sub_le _ f t
    _ ≤ 0.1755 / 2 + minStep / 2 := add_le_add hf2 hf1
    _ ≤ 0.55 := by norm_num [minStep]

/-- C10 witness: the round-trip bound at the concrete in-domain input 20 °C. -/
theorem claim10_roundtrip_bound_witness :
    minTempC ≤ (20:ℚ) ∧ (20:ℚ) ≤ maxTempC ∧
    |specMapper.levelToCelsius (specMapper.celsiusToLevel
      (specMapper.formatCelsius 20)) - 20| ≤ 0.55 :=
  ⟨by norm_num [minTempC], by norm_num [maxTempC],
    claim10_roundtrip_bound 20 (by norm_num [minTempC]) (by norm_num [maxTempC])⟩

end EightSleep
